import Mathlib

/-!
Shallow embedding of the product-lookup/search/normalize data path of
`bd_pz5.py` (class `FoodDatabase` and the worker `SearchThread.run`),
together with theorems settling the specification's claims about it.

Modelling conventions:
* Python strings are Lean `String`; `str.strip()` is `pyStrip` (drop
  whitespace from both ends); `str.isdigit()` is `pyIsDigit` (non-empty and
  all digit characters).
* A Python dict field that may be absent is an `Option`; a falsy dict
  (absent, `None`, or `{}`) is `none` at the places where the code only
  tests its truthiness.
* Nutriment values are modelled as integers; the code only tests their
  truthiness (non-zero) and copies them.
* Network I/O is an oracle argument: for the barcode endpoint the oracle
  yields either a raised exception (`HttpOutcome.exc`, e.g. timeout) or a
  response with a status code and a JSON-parse result consulted only on
  HTTP 200; for the search endpoint the oracle yields a raised exception or
  a parsed body whose `products` key may be absent.
* The cache `self.cache` is threaded explicitly; each operation also
  reports how many network requests it issued.
-/

namespace BdPz5

/-- Characters Python `str.strip()` removes by default (modelled by
`Char.isWhitespace`). -/
def pyStrip (s : String) : String :=
  String.mk (((s.data.dropWhile Char.isWhitespace).rdropWhile Char.isWhitespace))

/-- Python `str.isdigit()`: non-empty and every character a digit. -/
def pyIsDigit (s : String) : Bool :=
  !(s.data.isEmpty) && s.data.all Char.isDigit

/-- Python truthiness of an optional string (`None` and `""` are falsy). -/
def truthyStr : Option String → Bool
  | some s => !(s == "")
  | none => false

/-- A raw nutriment mapping: JSON object of numeric facts, modelled as an
association list from key to value (first binding wins on lookup). -/
abbrev NutriMap : Type := List (String × Int)

/-- Python `dict.get(k)` on a nutriment mapping. -/
def nutGet (d : NutriMap) (k : String) : Option Int :=
  (d.find? (fun kv => kv.1 == k)).map (fun kv => kv.2)

/-- A raw provider product JSON object: the five keys the code reads, each
possibly absent. -/
structure RawProduct where
  product_name : Option String
  brands : Option String
  code : Option String
  quantity : Option String
  nutriments : NutriMap
deriving DecidableEq

/-- The record built by `FoodDatabase.clean_product_data` for a truthy
input dict. -/
structure ProductRecord where
  name : String
  brand : String
  barcode : String
  quantity : String
  nutriments : NutriMap
deriving DecidableEq

/-- Result of `clean_product_data`: the empty dict `{}` for a falsy input,
otherwise a `ProductRecord`. -/
inductive Cleaned where
  | emptyDict
  | record (r : ProductRecord)
deriving DecidableEq

/-- Whether a `Cleaned` value is a `ProductRecord` (rather than `{}`). -/
def Cleaned.isRecord : Cleaned → Bool
  | .emptyDict => false
  | .record _ => true

/-- Body of `clean_product_data` past the falsy-input guard (the input dict
is truthy). -/
def clean_product_core (p : RawProduct) : ProductRecord :=
  let name0 := pyStrip (p.product_name.getD "")
  let name := if name0 = "" ∨ name0 = "null" then "Неизвестный продукт" else name0
  let brand0 := pyStrip (p.brands.getD "")
  let brand := if brand0 = "" ∨ brand0 = "null" then "—" else brand0
  { name := name
    brand := brand
    barcode := if truthyStr p.code then p.code.getD "" else "—"
    quantity := if truthyStr p.quantity then p.quantity.getD "" else "—"
    nutriments := p.nutriments }

/-- `FoodDatabase.clean_product_data`: a falsy input (`None` or `{}`,
modelled as `none`) yields `{}`; otherwise the normalized record. -/
def clean_product_data : Option RawProduct → Cleaned
  | none => .emptyDict
  | some p => .record (clean_product_core p)

/-- One `if nutriments.get(src): nutrition_data[dst] = nutriments[src]`
block of `extract_nutrition`: the singleton binding when the source value
is present and truthy (non-zero), nothing otherwise. -/
def nutPick (nutriments : NutriMap) (src dst : String) : NutriMap :=
  match nutGet nutriments src with
  | some v => if v ≠ 0 then [(dst, v)] else []
  | none => ([] : NutriMap)

/-- `FoodDatabase.extract_nutrition`: copy each of the four known keys when
its value is truthy (non-zero). A pure total function: no I/O, no
exception path. -/
def extract_nutrition (nutriments : NutriMap) : NutriMap :=
  if nutriments = ([] : NutriMap) then []
  else
    nutPick nutriments "energy-kcal_100g" "kcal_100g" ++
    nutPick nutriments "proteins_100g" "protein_100g" ++
    nutPick nutriments "fat_100g" "fat_100g" ++
    nutPick nutriments "carbohydrates_100g" "carbs_100g"

/-- The parsed JSON body of the barcode endpoint: `status` and `product`
keys, each possibly absent; `product = none` also covers a falsy product
value (JSON `null` or `{}`). -/
structure RawResponse where
  status : Option Int
  product : Option RawProduct
deriving DecidableEq

/-- The canonical not-found document `{"status": 0, "product": None}`. -/
def notFoundDoc : RawResponse := { status := some 0, product := none }

/-- Outcome of one GET on the barcode endpoint: either the request raised
(timeout, network error), or it returned a status code together with the
JSON-parse result, which the code consults only on HTTP 200 (`Except.error`
models a `response.json()` that raises). -/
inductive HttpOutcome where
  | exc (msg : String)
  | resp (status_code : Nat) (body : Except String RawResponse)

/-- Outcome of one GET on the search endpoint: either `get`/`json()` raised,
or a parsed body whose `products` key may be absent. -/
inductive SearchOutcome where
  | exc (msg : String)
  | ok (products : Option (List RawProduct))

/-- `self.cache`: dictionary from barcode to cached response document,
modelled as an association list where insertion prepends and lookup takes
the first binding. -/
abbrev Cache : Type := List (String × RawResponse)

def cacheGet (c : Cache) (b : String) : Option RawResponse :=
  (c.find? (fun kv => kv.1 == b)).map (fun kv => kv.2)

def cacheInsert (c : Cache) (b : String) (d : RawResponse) : Cache :=
  (b, d) :: c

/-- Result of `get_product_by_barcode`: the returned document, or the
re-raised exception message. -/
inductive LookupResult where
  | ok (data : RawResponse)
  | err (msg : String)
deriving DecidableEq

/-- `FoodDatabase.get_product_by_barcode` over a network oracle `net`.
Returns the result, the cache after the call, and the number of network
requests issued (0 on a cache hit, 1 otherwise). -/
def get_product_by_barcode (net : String → HttpOutcome) (cache : Cache)
    (barcode : String) : LookupResult × Cache × Nat :=
  match cacheGet cache barcode with
  | some data => (.ok data, cache, 0)
  | none =>
    match net barcode with
    | .exc e => (.err ("Ошибка: " ++ e), cache, 1)
    | .resp status_code body =>
      if status_code = 200 then
        match body with
        | .error e => (.err ("Ошибка: " ++ e), cache, 1)
        | .ok data =>
          if data.status = some 1 ∧ data.product.isSome then
            (.ok data, cacheInsert cache barcode data, 1)
          else
            (.ok notFoundDoc, cache, 1)
      else (.ok notFoundDoc, cache, 1)

/-- The filter in `search_products`: keep a product when its display name
or its brand is truthy. -/
def searchKeep (p : RawProduct) : Bool :=
  truthyStr p.product_name || truthyStr p.brands

/-- `FoodDatabase.search_products` over a network oracle `net` (the method
does not read or write `self.cache`). Returns the filtered product list or
the re-raised exception message; it always issues exactly one request. -/
def search_products (net : String → Nat → SearchOutcome) (query : String)
    (page_size : Nat) : Except String (List RawProduct) :=
  match net query page_size with
  | .exc e => .error ("Ошибка поиска: " ++ e)
  | .ok products => .ok ((products.getD []).filter searchKeep)

/-- The terminal signal the worker emits: `search_complete` with the
cleaned product list, or `search_error` with a message. -/
inductive Signal where
  | success (products : List ProductRecord)
  | failure (msg : String)
deriving DecidableEq

def Signal.isSuccess : Signal → Bool
  | .success _ => true
  | .failure _ => false

def Signal.isFailure : Signal → Bool
  | .success _ => false
  | .failure _ => true

/-- One invocation of a `FoodDatabase` client operation by the worker. -/
inductive ClientCall where
  | lookup (barcode : String)
  | searchByName (query : String) (page_size : Nat)
deriving DecidableEq

/-- The two network oracles, one per endpoint. -/
structure Oracles where
  barcode : String → HttpOutcome
  searchNet : String → Nat → SearchOutcome

/-- The cleaning loop of `SearchThread.run`: normalize each candidate (all
candidates reaching the loop are truthy dicts) and keep those whose name is
not the placeholder. -/
def cleanLoop : List RawProduct → List ProductRecord
  | [] => []
  | p :: rest =>
    let cleaned := clean_product_core p
    if cleaned.name ≠ "Неизвестный продукт" then cleaned :: cleanLoop rest
    else cleanLoop rest

/-- Everything observable about one `SearchThread.run`: the emitted signal,
the cache afterwards, the client operations invoked, and the number of
network requests issued. -/
structure RunOut where
  signal : Signal
  cache : Cache
  calls : List ClientCall
  netCalls : Nat
deriving DecidableEq

/-- `SearchThread.run`: trim the query; reject an empty one; classify as
barcode lookup (all digits, length ≥ 8) or text search with page size 25;
clean and filter the candidates; emit exactly one signal, converting any
client exception into `search_error` with its message. -/
def SearchThread.run (o : Oracles) (cache : Cache) (rawQuery : String) :
    RunOut :=
  let query := pyStrip rawQuery
  if query = "" then
    { signal := .failure "Введите запрос", cache := cache, calls := [], netCalls := 0 }
  else if pyIsDigit query && decide (query.length ≥ 8) then
    match get_product_by_barcode o.barcode cache query with
    | (.err e, cache1, n) =>
      { signal := .failure e, cache := cache1, calls := [.lookup query], netCalls := n }
    | (.ok result, cache1, n) =>
      let products :=
        if result.status = some 1 ∧ result.product.isSome then
          [result.product.getD { product_name := none, brands := none,
                                 code := none, quantity := none, nutriments := [] }]
        else []
      { signal := .success (cleanLoop products), cache := cache1,
        calls := [.lookup query], netCalls := n }
  else
    match search_products o.searchNet query 25 with
    | .error e =>
      { signal := .failure e, cache := cache,
        calls := [.searchByName query 25], netCalls := 1 }
    | .ok products =>
      { signal := .success (cleanLoop products), cache := cache,
        calls := [.searchByName query 25], netCalls := 1 }

/-! ### Helper definitions used only to state theorems -/

/-- The truthiness filter on an optional value, used to state which source
values survive `extract_nutrition`. -/
def truthyVal : Option Int → Option Int
  | some v => if v = 0 then none else some v
  | none => none

/-- Re-feed a normalized record to the normalizer with the same field
values (the already-normalized record of the idempotence claim). -/
def recordToRaw (r : ProductRecord) : RawProduct :=
  { product_name := some r.name
    brands := some r.brand
    code := some r.barcode
    quantity := some r.quantity
    nutriments := r.nutriments }

/-! ### Concrete network behaviours used by witnesses and counterexamples -/

/-- Barcode endpoint that always answers HTTP 200 with the canonical
not-found document. -/
def netNotFound : String → HttpOutcome := fun _ => .resp 200 (.ok notFoundDoc)

def sampleProduct : RawProduct :=
  { product_name := some "Nutella"
    brands := some "Ferrero"
    code := some "4006381333931"
    quantity := some "400 g"
    nutriments := [("energy-kcal_100g", 539)] }

def foundDoc : RawResponse := { status := some 1, product := some sampleProduct }

/-- Barcode endpoint that always answers HTTP 200 with a found product. -/
def netFound : String → HttpOutcome := fun _ => .resp 200 (.ok foundDoc)

def oracleFound : Oracles := ⟨netFound, fun _ _ => .ok (some [sampleProduct])⟩

def oracleNotFound : Oracles := ⟨netNotFound, fun _ _ => .ok (some [])⟩

/-- Both endpoints raise (e.g. a timeout) with cause text `"boom"`. -/
def oracleBoom : Oracles := ⟨fun _ => .exc "boom", fun _ _ => .exc "boom"⟩

/-! ### Lemmas about the Python `strip` model -/

theorem strip_core_dropWhile_fix (p : Char → Bool) (l : List Char) :
    ((l.dropWhile p).rdropWhile p).dropWhile p = (l.dropWhile p).rdropWhile p := by
  obtain ⟨t2, ht⟩ := List.rdropWhile_prefix p (l.dropWhile p)
  have hfix : (l.dropWhile p).dropWhile p = l.dropWhile p := List.dropWhile_idempotent p l
  cases hm : (l.dropWhile p).rdropWhile p with
  | nil => simp
  | cons a t =>
    rw [hm] at ht
    have hd : l.dropWhile p = a :: (t ++ t2) := by rw [← ht]; simp
    by_cases hpa : p a
    · exfalso
      rw [hd, List.dropWhile_cons_of_pos hpa] at hfix
      have hlen : ((t ++ t2).dropWhile p).length ≤ (t ++ t2).length :=
        (List.dropWhile_suffix p).length_le
      rw [hfix] at hlen
      simp at hlen
    · exact List.dropWhile_cons_of_neg hpa

theorem pyStrip_idem (s : String) : pyStrip (pyStrip s) = pyStrip s := by
  show String.mk
      ((((s.data.dropWhile Char.isWhitespace).rdropWhile
          Char.isWhitespace).dropWhile Char.isWhitespace).rdropWhile Char.isWhitespace) =
    String.mk ((s.data.dropWhile Char.isWhitespace).rdropWhile Char.isWhitespace)
  rw [strip_core_dropWhile_fix, List.rdropWhile_idempotent]

/-- A string passing the digit test is non-empty (shared helper). -/
theorem pyIsDigit_ne_empty {s : String} (h : pyIsDigit s = true) : ¬(s = "") := by
  intro he
  subst he
  exact absurd h (by decide)

/-- C10: `clean_product_data` on a falsy input (absent, `None`, or the
empty mapping) returns the empty mapping `{}`, not a `ProductRecord`: no
placeholder substitution happens on this path. -/
theorem clean_product_data_falsy :
    clean_product_data none = Cleaned.emptyDict ∧
      (clean_product_data none).isRecord = false :=
  ⟨rfl, rfl⟩

/-- C9: a query that is empty after trimming is rejected immediately with
the fixed message (the code's literal `"Введите запрос"`, the spec's
"enter a query"): no client operation is invoked and no network request is
issued. -/
theorem run_empty_query (o : Oracles) (c : Cache) (q : String)
    (h : pyStrip q = "") :
    SearchThread.run o c q =
      { signal := .failure "Введите запрос", cache := c, calls := [], netCalls := 0 } := by
  unfold SearchThread.run
  simp [h]

theorem run_empty_query_witness :
    pyStrip "   " = "" ∧
      SearchThread.run oracleBoom [] "   " =
        { signal := .failure "Введите запрос", cache := [], calls := [], netCalls := 0 } :=
  ⟨by decide, run_empty_query oracleBoom [] "   " (by decide)⟩

/-- C8: a product with `product_name: ""` and `brands: "Acme"` (any
barcode, quantity, nutriments) survives the `search_products` filter, its
normalized name becomes the placeholder, and the cleaning loop then drops
it from the final result — a brand alone does not keep it. -/
theorem brand_alone_excluded (code qty : Option String) (nm : NutriMap)
    (rest : List RawProduct) :
    searchKeep ⟨some "", some "Acme", code, qty, nm⟩ = true ∧
      (clean_product_core ⟨some "", some "Acme", code, qty, nm⟩).name =
        "Неизвестный продукт" ∧
      cleanLoop (⟨some "", some "Acme", code, qty, nm⟩ :: rest) = cleanLoop rest := by
  refine ⟨rfl, rfl, ?_⟩
  simp [cleanLoop, clean_product_core, pyStrip]

/-- C6: for a well-formed barcode query (all digits, length ≥ 8, not yet
cached) for which the provider answers HTTP 200 with the canonical
not-found document `{status: 0, product: null}`, the worker signals
Success with an empty result, not Failure. -/
theorem run_barcode_notfound (o : Oracles) (c : Cache) (q : String)
    (h1 : pyIsDigit (pyStrip q) = true) (h2 : 8 ≤ (pyStrip q).length)
    (h3 : cacheGet c (pyStrip q) = none)
    (h4 : o.barcode (pyStrip q) = .resp 200 (.ok notFoundDoc)) :
    (SearchThread.run o c q).signal = .success [] := by
  have hne : ¬(pyStrip q = "") := pyIsDigit_ne_empty h1
  have hg : get_product_by_barcode o.barcode c (pyStrip q) = (.ok notFoundDoc, c, 1) := by
    unfold get_product_by_barcode
    rw [h3, h4]
    simp [notFoundDoc]
  have hcond : (pyIsDigit (pyStrip q) && decide ((pyStrip q).length ≥ 8)) = true := by
    rw [h1]
    simpa using h2
  unfold SearchThread.run
  rw [if_neg hne, if_pos hcond, hg]
  simp [notFoundDoc, cleanLoop]

theorem run_barcode_notfound_witness :
    (pyIsDigit (pyStrip "12345678") = true ∧ 8 ≤ (pyStrip "12345678").length ∧
        cacheGet [] (pyStrip "12345678") = none ∧
        oracleNotFound.barcode (pyStrip "12345678") = .resp 200 (.ok notFoundDoc)) ∧
      (SearchThread.run oracleNotFound [] "12345678").signal = .success [] :=
  ⟨⟨by decide, by decide, by decide, rfl⟩,
    run_barcode_notfound oracleNotFound [] "12345678" (by decide) (by decide) (by decide) rfl⟩

/-- C5: a trimmed non-empty query is classified as a barcode lookup iff it
is all digits with length ≥ 8, and otherwise goes to `search_products`
with page size 25; on the barcode path a found document yields the
one-element candidate list `[p]` (cleaned), a not-found outcome the empty
one. -/
theorem run_classification (o : Oracles) (c : Cache) (q : String)
    (hne : ¬(pyStrip q = "")) :
    ((pyIsDigit (pyStrip q) = true ∧ 8 ≤ (pyStrip q).length) →
        (SearchThread.run o c q).calls = [.lookup (pyStrip q)]) ∧
      (¬(pyIsDigit (pyStrip q) = true ∧ 8 ≤ (pyStrip q).length) →
        (SearchThread.run o c q).calls = [.searchByName (pyStrip q) 25]) ∧
      (∀ d p, (pyIsDigit (pyStrip q) = true ∧ 8 ≤ (pyStrip q).length) →
        cacheGet c (pyStrip q) = none →
        o.barcode (pyStrip q) = .resp 200 (.ok d) →
        d.status = some 1 → d.product = some p →
        (SearchThread.run o c q).signal = .success (cleanLoop [p])) ∧
      (∀ d, (pyIsDigit (pyStrip q) = true ∧ 8 ≤ (pyStrip q).length) →
        cacheGet c (pyStrip q) = none →
        o.barcode (pyStrip q) = .resp 200 (.ok d) →
        ¬(d.status = some 1 ∧ d.product.isSome = true) →
        (SearchThread.run o c q).signal = .success []) := by
  refine ⟨?_, ?_, ?_, ?_⟩
  · rintro ⟨h1, h2⟩
    have hcond : (pyIsDigit (pyStrip q) && decide ((pyStrip q).length ≥ 8)) = true := by
      rw [h1]
      simpa using h2
    unfold SearchThread.run
    rw [if_neg hne, if_pos hcond]
    rcases hgp : get_product_by_barcode o.barcode c (pyStrip q) with ⟨d | m, c1, n⟩ <;> simp
  · intro hnb
    have hcond : ¬((pyIsDigit (pyStrip q) && decide ((pyStrip q).length ≥ 8)) = true) := by
      intro hx
      exact hnb (by simpa [ge_iff_le] using hx)
    unfold SearchThread.run
    rw [if_neg hne, if_neg hcond]
    rcases hsp : search_products o.searchNet (pyStrip q) 25 with m | ps <;> simp
  · rintro d p ⟨h1, h2⟩ h3 h4 hstat hprod
    have hcond : (pyIsDigit (pyStrip q) && decide ((pyStrip q).length ≥ 8)) = true := by
      rw [h1]
      simpa using h2
    have hg : get_product_by_barcode o.barcode c (pyStrip q) =
        (.ok d, cacheInsert c (pyStrip q) d, 1) := by
      unfold get_product_by_barcode
      rw [h3, h4]
      simp [hstat, hprod]
    unfold SearchThread.run
    rw [if_neg hne, if_pos hcond, hg]
    simp [hstat, hprod]
  · rintro d ⟨h1, h2⟩ h3 h4 hfail
    have hcond : (pyIsDigit (pyStrip q) && decide ((pyStrip q).length ≥ 8)) = true := by
      rw [h1]
      simpa using h2
    have hg : get_product_by_barcode o.barcode c (pyStrip q) = (.ok notFoundDoc, c, 1) := by
      unfold get_product_by_barcode
      rw [h3, h4]
      simp only [if_pos rfl]
      rw [if_neg hfail]
      simp
    unfold SearchThread.run
    rw [if_neg hne, if_pos hcond, hg]
    simp [notFoundDoc, cleanLoop]

theorem run_classification_witness :
    (¬(pyStrip "4006381333931" = "") ∧
        (pyIsDigit (pyStrip "4006381333931") = true ∧ 8 ≤ (pyStrip "4006381333931").length) ∧
        (SearchThread.run oracleFound [] "4006381333931").calls =
          [.lookup (pyStrip "4006381333931")]) ∧
      (¬(pyStrip "yogurt" = "") ∧
        ¬(pyIsDigit (pyStrip "yogurt") = true ∧ 8 ≤ (pyStrip "yogurt").length) ∧
        (SearchThread.run oracleFound [] "yogurt").calls =
          [.searchByName (pyStrip "yogurt") 25]) :=
  ⟨⟨by decide, ⟨by decide, by decide⟩,
      (run_classification oracleFound [] "4006381333931" (by decide)).1 ⟨by decide, by decide⟩⟩,
    ⟨by decide, by decide,
      (run_classification oracleFound [] "yogurt" (by decide)).2.1 (by decide)⟩⟩

/-- C1: every run emits exactly one terminal signal — a `Signal` is a
success exactly when it is not a failure — and any exception raised by the
client layer (barcode request raised, barcode JSON parse raised, search
request or parse raised) is converted into `search_error` carrying the
exception's textual description; the worker has no other exit. -/
theorem run_exactly_one_signal (o : Oracles) (c : Cache) (q : String) :
    ((SearchThread.run o c q).signal.isSuccess
        = !(SearchThread.run o c q).signal.isFailure) ∧
      (∀ m, pyIsDigit (pyStrip q) = true → 8 ≤ (pyStrip q).length →
        cacheGet c (pyStrip q) = none → o.barcode (pyStrip q) = .exc m →
        (SearchThread.run o c q).signal = .failure ("Ошибка: " ++ m)) ∧
      (∀ m, pyIsDigit (pyStrip q) = true → 8 ≤ (pyStrip q).length →
        cacheGet c (pyStrip q) = none → o.barcode (pyStrip q) = .resp 200 (.error m) →
        (SearchThread.run o c q).signal = .failure ("Ошибка: " ++ m)) ∧
      (∀ m, ¬(pyStrip q = "") → ¬(pyIsDigit (pyStrip q) = true ∧ 8 ≤ (pyStrip q).length) →
        o.searchNet (pyStrip q) 25 = .exc m →
        (SearchThread.run o c q).signal = .failure ("Ошибка поиска: " ++ m)) := by
  refine ⟨?_, ?_, ?_, ?_⟩
  · rcases (SearchThread.run o c q).signal with ps | m <;> rfl
  · intro m h1 h2 h3 h4
    have hcond : (pyIsDigit (pyStrip q) && decide ((pyStrip q).length ≥ 8)) = true := by
      rw [h1]
      simpa using h2
    have hg : get_product_by_barcode o.barcode c (pyStrip q) =
        (.err ("Ошибка: " ++ m), c, 1) := by
      unfold get_product_by_barcode
      rw [h3, h4]
    unfold SearchThread.run
    rw [if_neg (pyIsDigit_ne_empty h1), if_pos hcond, hg]
  · intro m h1 h2 h3 h4
    have hcond : (pyIsDigit (pyStrip q) && decide ((pyStrip q).length ≥ 8)) = true := by
      rw [h1]
      simpa using h2
    have hg : get_product_by_barcode o.barcode c (pyStrip q) =
        (.err ("Ошибка: " ++ m), c, 1) := by
      unfold get_product_by_barcode
      rw [h3, h4]
      simp
    unfold SearchThread.run
    rw [if_neg (pyIsDigit_ne_empty h1), if_pos hcond, hg]
  · intro m hne hnb h4
    have hcond : ¬((pyIsDigit (pyStrip q) && decide ((pyStrip q).length ≥ 8)) = true) := by
      intro hx
      exact hnb (by simpa [ge_iff_le] using hx)
    have hs : search_products o.searchNet (pyStrip q) 25 =
        .error ("Ошибка поиска: " ++ m) := by
      unfold search_products
      rw [h4]
    unfold SearchThread.run
    rw [if_neg hne, if_neg hcond, hs]

theorem run_exactly_one_signal_witness :
    (pyIsDigit (pyStrip "12345678") = true ∧ 8 ≤ (pyStrip "12345678").length ∧
        cacheGet [] (pyStrip "12345678") = none ∧
        oracleBoom.barcode (pyStrip "12345678") = .exc "boom") ∧
      (SearchThread.run oracleBoom [] "12345678").signal = .failure "Ошибка: boom" :=
  ⟨⟨by decide, by decide, by decide, rfl⟩,
    (run_exactly_one_signal oracleBoom [] "12345678").2.1 "boom"
      (by decide) (by decide) (by decide) rfl⟩

/-! ### Lemmas about nutriment lookup -/

theorem nutGet_append (a b : NutriMap) (k : String) :
    nutGet (a ++ b) k = (nutGet a k).or (nutGet b k) := by
  induction a with
  | nil => simp [nutGet]
  | cons kv t ih =>
    by_cases h : kv.1 == k
    · simp [nutGet, List.find?_cons, h]
    · simpa [nutGet, List.find?_cons, h] using ih

theorem nutGet_nutPick_self (n : NutriMap) (src dst : String) :
    nutGet (nutPick n src dst) dst = truthyVal (nutGet n src) := by
  unfold nutPick truthyVal
  cases h : nutGet n src with
  | none => rfl
  | some v =>
    by_cases hv : v = 0
    · simp [hv, nutGet]
    · simp [hv, nutGet, List.find?_cons]

theorem nutGet_nutPick_ne (n : NutriMap) (src dst k : String) (h : ¬(dst = k)) :
    nutGet (nutPick n src dst) k = none := by
  unfold nutPick
  cases nutGet n src with
  | none => rfl
  | some v =>
    by_cases hv : v = 0
    · simp [hv, nutGet]
    · simp [hv, nutGet, List.find?_cons, h]

/-- C3: `extract_nutrition` is a pure total function (no I/O, no exception
path), and each of the four output fields holds exactly the value of its
source key when that value is present and truthy (non-zero), and is absent
otherwise — in particular absent, never zero, when the source key is
missing. -/
theorem extract_nutrition_fields (n : NutriMap) :
    nutGet (extract_nutrition n) "kcal_100g" = truthyVal (nutGet n "energy-kcal_100g") ∧
      nutGet (extract_nutrition n) "protein_100g" = truthyVal (nutGet n "proteins_100g") ∧
      nutGet (extract_nutrition n) "fat_100g" = truthyVal (nutGet n "fat_100g") ∧
      nutGet (extract_nutrition n) "carbs_100g" = truthyVal (nutGet n "carbohydrates_100g") := by
  by_cases hn : n = ([] : NutriMap)
  · subst hn
    exact ⟨rfl, rfl, rfl, rfl⟩
  · unfold extract_nutrition
    rw [if_neg hn]
    refine ⟨?_, ?_, ?_, ?_⟩ <;> rw [nutGet_append, nutGet_append, nutGet_append]
    · rw [nutGet_nutPick_self,
        nutGet_nutPick_ne n "proteins_100g" "protein_100g" "kcal_100g" (by decide),
        nutGet_nutPick_ne n "fat_100g" "fat_100g" "kcal_100g" (by decide),
        nutGet_nutPick_ne n "carbohydrates_100g" "carbs_100g" "kcal_100g" (by decide)]
      simp
    · rw [nutGet_nutPick_self,
        nutGet_nutPick_ne n "energy-kcal_100g" "kcal_100g" "protein_100g" (by decide),
        nutGet_nutPick_ne n "fat_100g" "fat_100g" "protein_100g" (by decide),
        nutGet_nutPick_ne n "carbohydrates_100g" "carbs_100g" "protein_100g" (by decide)]
      simp
    · rw [nutGet_nutPick_self,
        nutGet_nutPick_ne n "energy-kcal_100g" "kcal_100g" "fat_100g" (by decide),
        nutGet_nutPick_ne n "proteins_100g" "protein_100g" "fat_100g" (by decide),
        nutGet_nutPick_ne n "carbohydrates_100g" "carbs_100g" "fat_100g" (by decide)]
      simp
    · rw [nutGet_nutPick_self,
        nutGet_nutPick_ne n "energy-kcal_100g" "kcal_100g" "carbs_100g" (by decide),
        nutGet_nutPick_ne n "proteins_100g" "protein_100g" "carbs_100g" (by decide),
        nutGet_nutPick_ne n "fat_100g" "fat_100g" "carbs_100g" (by decide)]
      simp

/-! ### Lemmas about normalization -/

theorem clean_core_eq (p : RawProduct) : clean_product_core p =
    { name := if pyStrip (p.product_name.getD "") = "" ∨ pyStrip (p.product_name.getD "") = "null"
        then "Неизвестный продукт" else pyStrip (p.product_name.getD "")
      brand := if pyStrip (p.brands.getD "") = "" ∨ pyStrip (p.brands.getD "") = "null"
        then "—" else pyStrip (p.brands.getD "")
      barcode := if truthyStr p.code then p.code.getD "" else "—"
      quantity := if truthyStr p.quantity then p.quantity.getD "" else "—"
      nutriments := p.nutriments } := rfl

theorem clean_name_cases (p : RawProduct) :
    (clean_product_core p).name = "Неизвестный продукт" ∨
      ((clean_product_core p).name = pyStrip (p.product_name.getD "") ∧
        ¬(pyStrip (p.product_name.getD "") = "") ∧
        ¬(pyStrip (p.product_name.getD "") = "null")) := by
  rw [clean_core_eq]
  by_cases h : pyStrip (p.product_name.getD "") = "" ∨ pyStrip (p.product_name.getD "") = "null"
  · left
    simp [h]
  · right
    push_neg at h
    simp [h.1, h.2]

theorem clean_brand_cases (p : RawProduct) :
    (clean_product_core p).brand = "—" ∨
      ((clean_product_core p).brand = pyStrip (p.brands.getD "") ∧
        ¬(pyStrip (p.brands.getD "") = "") ∧
        ¬(pyStrip (p.brands.getD "") = "null")) := by
  rw [clean_core_eq]
  by_cases h : pyStrip (p.brands.getD "") = "" ∨ pyStrip (p.brands.getD "") = "null"
  · left
    simp [h]
  · right
    push_neg at h
    simp [h.1, h.2]

theorem clean_name_ne_empty (p : RawProduct) : ¬((clean_product_core p).name = "") := by
  rcases clean_name_cases p with h | ⟨h, h1, _⟩ <;> rw [h]
  · decide
  · exact h1

theorem clean_name_ne_null (p : RawProduct) : ¬((clean_product_core p).name = "null") := by
  rcases clean_name_cases p with h | ⟨h, _, h2⟩ <;> rw [h]
  · decide
  · exact h2

theorem clean_brand_ne_empty (p : RawProduct) : ¬((clean_product_core p).brand = "") := by
  rcases clean_brand_cases p with h | ⟨h, h1, _⟩ <;> rw [h]
  · decide
  · exact h1

theorem clean_brand_ne_null (p : RawProduct) : ¬((clean_product_core p).brand = "null") := by
  rcases clean_brand_cases p with h | ⟨h, _, h2⟩ <;> rw [h]
  · decide
  · exact h2

theorem clean_name_strip_fix (p : RawProduct) :
    pyStrip (clean_product_core p).name = (clean_product_core p).name := by
  rcases clean_name_cases p with h | ⟨h, _, _⟩ <;> rw [h]
  · decide
  · exact pyStrip_idem _

theorem clean_brand_strip_fix (p : RawProduct) :
    pyStrip (clean_product_core p).brand = (clean_product_core p).brand := by
  rcases clean_brand_cases p with h | ⟨h, _, _⟩ <;> rw [h]
  · decide
  · exact pyStrip_idem _

theorem truthyStr_getD_ne_empty {x : Option String} (h : truthyStr x = true) :
    ¬(x.getD "" = "") := by
  cases x with
  | none => exact absurd h (by decide)
  | some s =>
    simp [truthyStr] at h
    simpa using h

theorem clean_barcode_ne_empty (p : RawProduct) :
    ¬((clean_product_core p).barcode = "") := by
  rw [clean_core_eq]
  by_cases h : truthyStr p.code = true
  · simpa [h] using truthyStr_getD_ne_empty h
  · simp only [Bool.not_eq_true] at h
    simp [h]

theorem clean_quantity_ne_empty (p : RawProduct) :
    ¬((clean_product_core p).quantity = "") := by
  rw [clean_core_eq]
  by_cases h : truthyStr p.quantity = true
  · simpa [h] using truthyStr_getD_ne_empty h
  · simp only [Bool.not_eq_true] at h
    simp [h]

/-- C7: every normalized record has non-empty name and brand; name and
brand are whitespace-trimmed (fixed points of `pyStrip`); an absent, blank
or literal-`"null"` source value yields the fixed placeholder (the code's
literals `"Неизвестный продукт"` for name and `"—"` for brand); barcode
and quantity default to `"—"` when absent or empty; the raw nutriment
mapping is carried through unchanged. -/
theorem clean_record_invariants (p : RawProduct) :
    ¬((clean_product_core p).name = "") ∧
      ¬((clean_product_core p).brand = "") ∧
      pyStrip (clean_product_core p).name = (clean_product_core p).name ∧
      pyStrip (clean_product_core p).brand = (clean_product_core p).brand ∧
      ((pyStrip (p.product_name.getD "") = "" ∨ pyStrip (p.product_name.getD "") = "null") →
        (clean_product_core p).name = "Неизвестный продукт") ∧
      ((pyStrip (p.brands.getD "") = "" ∨ pyStrip (p.brands.getD "") = "null") →
        (clean_product_core p).brand = "—") ∧
      (truthyStr p.code = false → (clean_product_core p).barcode = "—") ∧
      (truthyStr p.quantity = false → (clean_product_core p).quantity = "—") ∧
      (clean_product_core p).nutriments = p.nutriments := by
  refine ⟨clean_name_ne_empty p, clean_brand_ne_empty p, clean_name_strip_fix p,
    clean_brand_strip_fix p, ?_, ?_, ?_, ?_, rfl⟩
  · intro h
    rw [clean_core_eq]
    simp [h]
  · intro h
    rw [clean_core_eq]
    simp [h]
  · intro h
    rw [clean_core_eq]
    simp [h]
  · intro h
    rw [clean_core_eq]
    simp [h]

theorem clean_record_invariants_witness :
    ((pyStrip ((some "  null " : Option String).getD "") = "" ∨
        pyStrip ((some "  null " : Option String).getD "") = "null") ∧
      (clean_product_core ⟨some "  null ", some " Acme ", none, some "", [("fat_100g", 1)]⟩).name =
        "Неизвестный продукт") ∧
      (truthyStr (none : Option String) = false ∧
        (clean_product_core ⟨some "  null ", some " Acme ", none, some "", [("fat_100g", 1)]⟩).barcode =
          "—") :=
  ⟨⟨Or.inr (by decide),
      (clean_record_invariants ⟨some "  null ", some " Acme ", none, some "", [("fat_100g", 1)]⟩).2.2.2.2.1
        (Or.inr (by decide))⟩,
    ⟨by decide,
      (clean_record_invariants ⟨some "  null ", some " Acme ", none, some "", [("fat_100g", 1)]⟩).2.2.2.2.2.2.1
        (by decide)⟩⟩

/-- C4: normalizing an already-normalized record — feeding the output
field values back in as the raw field values — yields the identical
record. -/
theorem clean_idempotent (p : RawProduct) :
    clean_product_core (recordToRaw (clean_product_core p)) = clean_product_core p := by
  rw [clean_core_eq (recordToRaw (clean_product_core p))]
  simp only [recordToRaw, Option.getD_some]
  rw [clean_name_strip_fix, clean_brand_strip_fix]
  rw [if_neg (by rintro (h | h) <;> [exact clean_name_ne_empty p h; exact clean_name_ne_null p h])]
  rw [if_neg (by rintro (h | h) <;> [exact clean_brand_ne_empty p h; exact clean_brand_ne_null p h])]
  have hbc : truthyStr (some (clean_product_core p).barcode) = true := by
    simpa [truthyStr] using clean_barcode_ne_empty p
  have hqt : truthyStr (some (clean_product_core p).quantity) = true := by
    simpa [truthyStr] using clean_quantity_ne_empty p
  rw [if_pos hbc, if_pos hqt]

/-! ### Lemmas about the cache -/

theorem cacheGet_insert_self (c : Cache) (b : String) (d : RawResponse) :
    cacheGet (cacheInsert c b d) b = some d := by
  simp [cacheGet, cacheInsert, List.find?_cons]

theorem cacheGet_insert_ne (c : Cache) (b b2 : String) (d : RawResponse)
    (h : ¬(b = b2)) : cacheGet (cacheInsert c b d) b2 = cacheGet c b2 := by
  simp [cacheGet, cacheInsert, List.find?_cons, h]

/-- C2 counterexample: with the provider answering HTTP 200 with the
canonical not-found document, two consecutive `get_product_by_barcode`
calls on an empty cache issue two network calls, not at most one — the
failed first lookup does not populate the cache. -/
theorem lookup_consecutive_two_net_calls :
    1 < (get_product_by_barcode netNotFound [] "12345678").2.2 +
      (get_product_by_barcode netNotFound
        (get_product_by_barcode netNotFound [] "12345678").2.1 "12345678").2.2 := by
  decide

/-- C2 (amended): two consecutive `get_product_by_barcode b` calls issue
at most one network call in total provided the first call hits the cache
or returns a found document (status 1, non-empty product); the cache is
populated only by barcode lookups that succeeded with HTTP 200, status 1
and a non-empty product — never by any other outcome, and never by the
search-by-name path of the worker, which leaves the cache unchanged. -/
theorem lookup_cache_amended (net : String → HttpOutcome) (c : Cache) (b : String) :
    (((cacheGet c b).isSome = true ∨
        (∃ d, (get_product_by_barcode net c b).1 = .ok d ∧ d.status = some 1 ∧
          d.product.isSome = true)) →
      (get_product_by_barcode net c b).2.2 +
        (get_product_by_barcode net (get_product_by_barcode net c b).2.1 b).2.2 ≤ 1) ∧
      (∀ b2 d, cacheGet (get_product_by_barcode net c b).2.1 b2 = some d →
        cacheGet c b2 = some d ∨
          (b2 = b ∧ (get_product_by_barcode net c b).1 = .ok d ∧
            net b = .resp 200 (.ok d) ∧ d.status = some 1 ∧ d.product.isSome = true)) ∧
      (∀ (o : Oracles) (c2 : Cache) (q2 : String),
        (pyIsDigit (pyStrip q2) && decide ((pyStrip q2).length ≥ 8)) = false →
        (SearchThread.run o c2 q2).cache = c2) := by
  refine ⟨?_, ?_, ?_⟩
  · intro h
    rcases hc : cacheGet c b with _ | d0
    · rcases h with hcached | ⟨d, hok, hstat, hprod⟩
      · rw [hc] at hcached
        simp at hcached
      · cases hnet : net b with
        | exc m =>
          have hg1 : get_product_by_barcode net c b = (.err ("Ошибка: " ++ m), c, 1) := by
            unfold get_product_by_barcode
            rw [hc, hnet]
          rw [hg1] at hok
          simp at hok
        | resp code body =>
          by_cases h200 : code = 200
          · subst h200
            cases body with
            | error m =>
              have hg1 : get_product_by_barcode net c b = (.err ("Ошибка: " ++ m), c, 1) := by
                unfold get_product_by_barcode
                rw [hc, hnet]
                simp
              rw [hg1] at hok
              simp at hok
            | ok data =>
              by_cases hsucc : data.status = some 1 ∧ data.product.isSome = true
              · have hg1 : get_product_by_barcode net c b =
                    (.ok data, cacheInsert c b data, 1) := by
                  unfold get_product_by_barcode
                  rw [hc, hnet]
                  simp [hsucc]
                have hg2 : get_product_by_barcode net (cacheInsert c b data) b =
                    (.ok data, cacheInsert c b data, 0) := by
                  unfold get_product_by_barcode
                  rw [cacheGet_insert_self]
                rw [hg1]
                simp [hg2]
              · have hg1 : get_product_by_barcode net c b = (.ok notFoundDoc, c, 1) := by
                  unfold get_product_by_barcode
                  rw [hc, hnet]
                  simp only [if_pos rfl]
                  rw [if_neg hsucc]
                  simp
                rw [hg1] at hok
                simp at hok
                subst hok
                exact absurd hstat (by decide)
          · have hg1 : get_product_by_barcode net c b = (.ok notFoundDoc, c, 1) := by
              unfold get_product_by_barcode
              rw [hc, hnet]
              simp [h200]
            rw [hg1] at hok
            simp at hok
            subst hok
            exact absurd hstat (by decide)
    · have hg1 : get_product_by_barcode net c b = (.ok d0, c, 0) := by
        unfold get_product_by_barcode
        rw [hc]
      rw [hg1]
      simp [hg1]
  · intro b2 d hget
    rcases hc : cacheGet c b with _ | d0
    · cases hnet : net b with
      | exc m =>
        have hg1 : get_product_by_barcode net c b = (.err ("Ошибка: " ++ m), c, 1) := by
          unfold get_product_by_barcode
          rw [hc, hnet]
        rw [hg1] at hget
        exact Or.inl hget
      | resp code body =>
        by_cases h200 : code = 200
        · subst h200
          cases body with
          | error m =>
            have hg1 : get_product_by_barcode net c b = (.err ("Ошибка: " ++ m), c, 1) := by
              unfold get_product_by_barcode
              rw [hc, hnet]
              simp
            rw [hg1] at hget
            exact Or.inl hget
          | ok data =>
            by_cases hsucc : data.status = some 1 ∧ data.product.isSome = true
            · have hg1 : get_product_by_barcode net c b =
                  (.ok data, cacheInsert c b data, 1) := by
                unfold get_product_by_barcode
                rw [hc, hnet]
                simp [hsucc]
              rw [hg1] at hget
              by_cases hb2 : b = b2
              · subst hb2
                rw [cacheGet_insert_self] at hget
                have hd : data = d := by simpa using hget
                rw [← hd]
                exact Or.inr ⟨rfl, by rw [hg1], rfl, hsucc.1, hsucc.2⟩
              · rw [cacheGet_insert_ne _ _ _ _ hb2] at hget
                exact Or.inl hget
            · have hg1 : get_product_by_barcode net c b = (.ok notFoundDoc, c, 1) := by
                unfold get_product_by_barcode
                rw [hc, hnet]
                simp only [if_pos rfl]
                rw [if_neg hsucc]
                simp
              rw [hg1] at hget
              exact Or.inl hget
        · have hg1 : get_product_by_barcode net c b = (.ok notFoundDoc, c, 1) := by
            unfold get_product_by_barcode
            rw [hc, hnet]
            simp [h200]
          rw [hg1] at hget
          exact Or.inl hget
    · have hg1 : get_product_by_barcode net c b = (.ok d0, c, 0) := by
        unfold get_product_by_barcode
        rw [hc]
      rw [hg1] at hget
      exact Or.inl hget
  · intro o c2 q2 hnb
    unfold SearchThread.run
    by_cases hq : pyStrip q2 = ""
    · simp [hq]
    · rw [if_neg hq, if_neg (by rw [hnb]; exact Bool.false_ne_true)]
      rcases hsp : search_products o.searchNet (pyStrip q2) 25 with m | ps <;> simp

theorem lookup_cache_amended_witness :
    ((cacheGet [] "4006381333931").isSome = true ∨
        (∃ d, (get_product_by_barcode netFound [] "4006381333931").1 = .ok d ∧
          d.status = some 1 ∧ d.product.isSome = true)) ∧
      (get_product_by_barcode netFound [] "4006381333931").2.2 +
        (get_product_by_barcode netFound
          (get_product_by_barcode netFound [] "4006381333931").2.1 "4006381333931").2.2 ≤ 1 :=
  ⟨Or.inr ⟨foundDoc, rfl, rfl, rfl⟩,
    (lookup_cache_amended netFound [] "4006381333931").1 (Or.inr ⟨foundDoc, rfl, rfl, rfl⟩)⟩

end BdPz5
